import Mathlib

/-!
Shallow embedding of `src/controllers/bookController.js` from the
manage-local-library repository: an Express controller for Book CRUD
backed by a document store (Mongoose), with Author as a read-only
collaborator collection.

Each request handler becomes a Lean function from the store state (and the
request inputs it reads) to the sequence of response-producing calls it
makes (`res.render`, `res.redirect`, `next(err)`), together with the new
store state for handlers that write.  A handler may issue more than one
such call (the delete handlers redirect on a missing book and then fall
through); the HTTP response the client receives is the FIRST call issued,
since Express sends headers on the first call and later calls cannot send.
-/

namespace LocalLibrary

/-- An Author document. Only the identifier and the family name (used as
the sort key in `Author.find().sort(\x7b family_name: 1 \x7d)`) are exercised
by this controller. -/
structure Author where
  id : String
  family_name : String
deriving DecidableEq

/-- A Book document as stored: identifier, title, a reference to an Author
identifier, and summary. -/
structure Book where
  id : String
  title : String
  author : String
  summary : String
deriving DecidableEq

/-- A book value as it reaches the view renderer.  `authorEntity` is the
result of `populate("author")` (`none` when the handler did not populate,
as for a form candidate, or when the referenced Author does not exist);
`summary` is `none` when the query projected it out
(`Book.find(\x7b\x7d, "title author")`). -/
structure RBook where
  id : String
  title : String
  author : String
  authorEntity : Option Author
  summary : Option String
deriving DecidableEq

/-- The document store: the Book and Author collections, plus the counter
from which the store derives the identifier assigned to the next inserted
Book. -/
structure Store where
  books : List Book
  authors : List Author
  nextId : Nat
deriving DecidableEq

/-- The view model passed to `res.render`: the fields this controller ever
sets.  A field is `none` when the render call does not pass it; the
`book` field is `some none` when the handler passes an explicit `null`
book (the delete-form handler on a missing book). -/
structure ViewModel where
  title : String
  book_list : Option (List RBook) := none
  authors : Option (List Author) := none
  book : Option (Option RBook) := none
  errors : Option (List String) := none
deriving DecidableEq

/-- One response-producing call made by a handler: `res.render(view, vm)`,
`res.redirect(url)`, or `next(err)` with `err.status` and `err.message`. -/
inductive Action where
  | render (view : String) (vm : ViewModel)
  | redirect (url : String)
  | nextError (status : Nat) (msg : String)
deriving DecidableEq

/-- The HTTP response the client receives: the first response-producing
call the handler issued (Express sends headers on the first call; any
later call fails with "headers already sent" and sends nothing). -/
def response (acts : List Action) : Option Action :=
  acts.head?

/-- `Book.findById(id)`: the document whose `_id` equals `id`, if any. -/
def findBook (s : Store) (id : String) : Option Book :=
  s.books.find? (fun b => b.id == id)

/-- `populate("author")` resolution of one reference: the Author document
whose identifier equals the stored reference, if any. -/
def findAuthor (s : Store) (ref : String) : Option Author :=
  s.authors.find? (fun a => a.id == ref)

/-- A fully fetched book with its author reference resolved
(`findById(...).populate("author")`). -/
def populateBook (s : Store) (b : Book) : RBook :=
  ⟨b.id, b.title, b.author, findAuthor s b.author, some b.summary⟩

/-- A book as returned by `Book.find(\x7b\x7d, "title author").populate("author")`:
projected to title and author, with the author reference resolved. -/
def listItem (s : Store) (b : Book) : RBook :=
  ⟨b.id, b.title, b.author, findAuthor s b.author, none⟩

/-- `.sort(\x7b title: 1 \x7d)`: stable ascending sort on the title string
(case-sensitive ordinal comparison). -/
def sortByTitle (l : List RBook) : List RBook :=
  List.insertionSort (fun x y => x.title ≤ y.title) l

/-- `.sort(\x7b family_name: 1 \x7d)`: stable ascending sort on the family
name string. -/
def sortByFamilyName (l : List Author) : List Author :=
  List.insertionSort (fun x y => x.family_name ≤ y.family_name) l

/-- `Author.find().sort(\x7b family_name: 1 \x7d)`: the full Author collection
sorted ascending by family name. -/
def allAuthorsSorted (s : Store) : List Author :=
  sortByFamilyName s.authors

/-- Modelled from the spec: the Book model file (`src/models/book`) is not
part of the provided source, so the derived attribute `book.url` is taken
from the spec, which describes it as "a canonical URL path built from the
identifier" and exhibits it in §8 as `/catalog/book/B1` for identifier
`B1`. -/
def bookUrl (id : String) : String :=
  "/catalog/book/" ++ id

/-- The identifier the store assigns to the next inserted Book. -/
def freshId (s : Store) : String :=
  "b" ++ toString s.nextId

/-- The `trim()` sanitizer of the validation middleware (JavaScript
`String.prototype.trim`): strip leading and trailing whitespace. -/
def jsTrim (s : String) : String :=
  ((s.toList.dropWhile Char.isWhitespace).reverse.dropWhile
    Char.isWhitespace).reverse.asString

/-- The `escape()` sanitizer of the validation middleware (validator.js):
replace each HTML-significant character by its entity. -/
def escapeChar (c : Char) : String :=
  if c = Char.ofNat 38 then "&amp;"
  else if c = Char.ofNat 34 then "&quot;"
  else if c = Char.ofNat 39 then "&#x27;"
  else if c = Char.ofNat 60 then "&lt;"
  else if c = Char.ofNat 62 then "&gt;"
  else if c = Char.ofNat 47 then "&#x2F;"
  else if c = Char.ofNat 92 then "&#x5C;"
  else if c = Char.ofNat 96 then "&#96;"
  else String.singleton c

/-- `escape()` applied to a whole field value. -/
def escapeHtml (s : String) : String :=
  String.join (s.toList.map escapeChar)

/-- The validation chain shared verbatim by `book_create_post` and
`book_update_post`: each of title, author, summary is trimmed, then
checked for `isLength(\x7b min: 1 \x7d)`; the aggregated `validationResult`
holds one message per failing field, in middleware order. -/
def fieldErrors (title author summary : String) : List String :=
  (if (jsTrim title).length < 1 then ["Title must not be empty."] else []) ++
  (if (jsTrim author).length < 1 then ["Author must not be empty."] else []) ++
  (if (jsTrim summary).length < 1 then ["Summary must not be empty."] else [])

/-- The retrieval performed by `book_list`:
`Book.find(\x7b\x7d, "title author").sort(\x7b title: 1 \x7d).populate("author")`. -/
def bookListRetrieve (s : Store) : List RBook :=
  sortByTitle (s.books.map (listItem s))

/-- The retrieval performed by `index` (textually the same query as
`book_list`, duplicated in the source). -/
def indexRetrieve (s : Store) : List RBook :=
  sortByTitle (s.books.map (listItem s))

/-- Display list of all books (`book_list`). -/
def book_list (s : Store) : List Action :=
  [Action.render "book_list"
    { title := "Book List", book_list := some (bookListRetrieve s) }]

/-- Home page (`index`): same retrieval, rendered under the `index`
template with title "Home". -/
def index (s : Store) : List Action :=
  [Action.render "index"
    { title := "Home", book_list := some (indexRetrieve s) }]

/-- Display detail page for a specific book (`book_detail`). -/
def book_detail (s : Store) (pathId : String) : List Action :=
  match findBook s pathId with
  | none => [Action.nextError 404 "Book not found"]
  | some b =>
      [Action.render "book_detail"
        { title := b.title, book := some (some (populateBook s b)) }]

/-- Display book create form on GET (`book_create_get`). -/
def book_create_get (s : Store) : List Action :=
  [Action.render "book_form"
    { title := "Create Book", authors := some (allAuthorsSorted s) }]

/-- The candidate Book a POST handler constructs from the sanitized body
fields, rendered back into the form (author reference not populated). -/
def candidateRBook (b : Book) : RBook :=
  ⟨b.id, b.title, b.author, none, some b.summary⟩

/-- Handle book create on POST (`book_create_post`): validate/sanitize the
three body fields, build a candidate Book from the trimmed escaped
values; on any validation error re-render the form with the candidate,
the error list and the sorted Author list, writing nothing; otherwise
save the candidate (the store assigns its identifier) and redirect to its
canonical URL. -/
def book_create_post (s : Store) (title author summary : String) :
    Store × List Action :=
  let errors := fieldErrors title author summary
  let book : Book :=
    ⟨freshId s, escapeHtml (jsTrim title), escapeHtml (jsTrim author),
      escapeHtml (jsTrim summary)⟩
  if errors = [] then
    ({ s with books := s.books ++ [book], nextId := s.nextId + 1 },
      [Action.redirect (bookUrl book.id)])
  else
    (s, [Action.render "book_form"
      { title := "Create Book", authors := some (allAuthorsSorted s),
        book := some (some (candidateRBook book)),
        errors := some errors }])

/-- Display book delete form on GET (`book_delete_get`): on a missing book
the handler issues a redirect to the book list but does not return, so it
falls through and also invokes the renderer with a `null` book. -/
def book_delete_get (s : Store) (pathId : String) : List Action :=
  match (findBook s pathId).map (populateBook s) with
  | none =>
      [Action.redirect "/catalog/books",
        Action.render "book_delete" { title := "Delete Book", book := some none }]
  | some b =>
      [Action.render "book_delete"
        { title := "Delete Book", book := some (some b) }]

/-- `Book.findByIdAndDelete(id)`: remove the (first, hence with unique
identifiers the only) document whose `_id` equals `id`; a no-op when no
document matches. -/
def removeById (id : String) : List Book → List Book
  | [] => []
  | b :: bs => if b.id = id then bs else b :: removeById id bs

/-- Handle book delete on POST (`book_delete_post`): look up the book at
the PATH identifier; if absent, redirect to the book list (without
returning, so execution falls through); in every case delete the book
whose identifier is in the request BODY and redirect to the book list. -/
def book_delete_post (s : Store) (pathId bodyId : String) :
    Store × List Action :=
  let pre :=
    match findBook s pathId with
    | none => [Action.redirect "/catalog/books"]
    | some _ => []
  ({ s with books := removeById bodyId s.books },
    pre ++ [Action.redirect "/catalog/books"])

/-- Display book update form on GET (`book_update_get`). -/
def book_update_get (s : Store) (pathId : String) : List Action :=
  match findBook s pathId with
  | none => [Action.nextError 404 "Book not found"]
  | some b =>
      [Action.render "book_form"
        { title := "Update Book", authors := some (allAuthorsSorted s),
          book := some (some (populateBook s b)) }]

/-- `Book.findByIdAndUpdate(id, doc, \x7b\x7d)`: replace the fields of the
(first) document whose `_id` equals `id` with the candidate's fields,
keeping the stored identifier; a no-op (no upsert) when no document
matches. -/
def updateById (id : String) (nb : Book) : List Book → List Book
  | [] => []
  | b :: bs =>
      if b.id = id then ⟨b.id, nb.title, nb.author, nb.summary⟩ :: bs
      else b :: updateById id nb bs

/-- Handle book update on POST (`book_update_post`): same validation chain
as create; the candidate carries the PATH identifier as its `_id`.  On
validation errors re-render the form with the candidate; otherwise update
the stored book at the path identifier and redirect to the candidate's
canonical URL. -/
def book_update_post (s : Store) (pathId title author summary : String) :
    Store × List Action :=
  let errors := fieldErrors title author summary
  let book : Book :=
    ⟨pathId, escapeHtml (jsTrim title), escapeHtml (jsTrim author),
      escapeHtml (jsTrim summary)⟩
  if errors = [] then
    ({ s with books := updateById pathId book s.books },
      [Action.redirect (bookUrl book.id)])
  else
    (s, [Action.render "book_form"
      { title := "Update Book", authors := some (allAuthorsSorted s),
        book := some (some (candidateRBook book)),
        errors := some errors }])

/-! ### Basic facts about the embedded operations -/

instance : IsTotal RBook (fun x y => x.title ≤ y.title) :=
  ⟨fun x y => le_total x.title y.title⟩

instance : IsTrans RBook (fun x y => x.title ≤ y.title) :=
  ⟨fun _ _ _ h h2 => le_trans h h2⟩

instance : IsTotal Author (fun x y => x.family_name ≤ y.family_name) :=
  ⟨fun x y => le_total x.family_name y.family_name⟩

instance : IsTrans Author (fun x y => x.family_name ≤ y.family_name) :=
  ⟨fun _ _ _ h h2 => le_trans h h2⟩

theorem sortByTitle_perm (l : List RBook) : (sortByTitle l).Perm l :=
  List.perm_insertionSort _ l

theorem sortByTitle_sorted (l : List RBook) :
    List.Pairwise (fun x y => x.title ≤ y.title) (sortByTitle l) :=
  List.sorted_insertionSort _ l

theorem sortByFamilyName_perm (l : List Author) : (sortByFamilyName l).Perm l :=
  List.perm_insertionSort _ l

theorem allAuthorsSorted_perm (s : Store) : (allAuthorsSorted s).Perm s.authors :=
  sortByFamilyName_perm s.authors

theorem string_length_lt_one_iff (x : String) : x.length < 1 ↔ x = "" := by
  rw [Nat.lt_one_iff]
  cases x with
  | mk data => simp [String.length, String.ext_iff]

theorem fieldErrors_eq_nil_iff (t a m : String) :
    fieldErrors t a m = [] ↔
      (jsTrim t ≠ "" ∧ jsTrim a ≠ "" ∧ jsTrim m ≠ "") := by
  simp only [fieldErrors, string_length_lt_one_iff]
  split_ifs <;> simp_all

theorem mem_fieldErrors_title (t a m : String) :
    "Title must not be empty." ∈ fieldErrors t a m ↔ jsTrim t = "" := by
  simp only [fieldErrors, string_length_lt_one_iff]
  split_ifs <;> simp_all

theorem mem_fieldErrors_author (t a m : String) :
    "Author must not be empty." ∈ fieldErrors t a m ↔ jsTrim a = "" := by
  simp only [fieldErrors, string_length_lt_one_iff]
  split_ifs <;> simp_all

theorem mem_fieldErrors_summary (t a m : String) :
    "Summary must not be empty." ∈ fieldErrors t a m ↔ jsTrim m = "" := by
  simp only [fieldErrors, string_length_lt_one_iff]
  split_ifs <;> simp_all

theorem find?_decomp {α : Type} (p : α → Bool) (l : List α) (b : α)
    (h : l.find? p = some b) :
    ∃ l₁ l₂, l = l₁ ++ b :: l₂ ∧ (∀ x ∈ l₁, p x = false) ∧ p b = true := by
  induction l with
  | nil => simp at h
  | cons c cs ih =>
    by_cases hc : p c
    · rw [List.find?_cons_of_pos _ hc] at h
      cases h
      exact ⟨[], cs, rfl, by simp, hc⟩
    · rw [List.find?_cons_of_neg _ (by simpa using hc)] at h
      obtain ⟨l₁, l₂, rfl, h1, h2⟩ := ih h
      refine ⟨c :: l₁, l₂, rfl, ?_, h2⟩
      intro x hx
      rcases List.mem_cons.mp hx with rfl | hx
      · simpa using hc
      · exact h1 x hx

theorem findBook_decomp (s : Store) (pid : String) (b : Book)
    (h : findBook s pid = some b) :
    b.id = pid ∧ ∃ l₁ l₂, s.books = l₁ ++ b :: l₂ ∧ ∀ x ∈ l₁, x.id ≠ pid := by
  obtain ⟨l₁, l₂, he, h1, h2⟩ := find?_decomp _ _ _ h
  exact ⟨by simpa using h2, l₁, l₂, he, fun x hx => by simpa using h1 x hx⟩

theorem updateById_append (pid : String) (nb : Book) (l₁ : List Book)
    (b0 : Book) (l₂ : List Book) (h1 : ∀ x ∈ l₁, x.id ≠ pid)
    (h0 : b0.id = pid) :
    updateById pid nb (l₁ ++ b0 :: l₂)
      = l₁ ++ (⟨b0.id, nb.title, nb.author, nb.summary⟩ : Book) :: l₂ := by
  induction l₁ with
  | nil => simp [updateById, h0]
  | cons c cs ih =>
    have hc : c.id ≠ pid := h1 c (List.mem_cons_self c cs)
    simp only [List.cons_append, updateById, if_neg hc, List.append_eq]
    rw [ih (fun x hx => h1 x (List.mem_cons_of_mem c hx))]

theorem updateById_id (pid : String) (nb : Book) (l : List Book)
    (h : ∀ x ∈ l, x.id ≠ pid) : updateById pid nb l = l := by
  induction l with
  | nil => rfl
  | cons c cs ih =>
    simp only [updateById, if_neg (h c (List.mem_cons_self c cs))]
    rw [ih (fun x hx => h x (List.mem_cons_of_mem c hx))]

/-! ### Concrete data for witnesses -/

/-- A sample author. -/
def demoAuthor : Author := ⟨"a1", "Austen"⟩

/-- A sample stored book referencing `demoAuthor`. -/
def demoBook : Book := ⟨"b0", "Emma", "a1", "A novel"⟩

/-- A sample store with one book and one author. -/
def demoStore : Store := ⟨[demoBook], [demoAuthor], 1⟩

/-- The empty store. -/
def emptyStore : Store := ⟨[], [], 0⟩

/-! ### The claims -/

/-- C3: for every Detail request and every Update-form (GET) request whose
path identifier matches no stored Book, the handler forwards an error
object carrying status 404 and message "Book not found" to the generic
error handler, and renders nothing. -/
theorem claim_C3 (s : Store) (pid : String) (h : findBook s pid = none) :
    book_detail s pid = [Action.nextError 404 "Book not found"] ∧
    book_update_get s pid = [Action.nextError 404 "Book not found"] := by
  constructor <;> simp [book_detail, book_update_get, h]

/-- Witness for C3 at the empty store. -/
theorem claim_C3_witness :
    book_detail emptyStore "does-not-exist"
        = [Action.nextError 404 "Book not found"] ∧
    book_update_get emptyStore "does-not-exist"
        = [Action.nextError 404 "Book not found"] :=
  claim_C3 emptyStore "does-not-exist" (by decide)

/-- C4: for every state of the Book store, the List and Home operations
each return all Book entities sorted ascending by title, with each book's
author reference resolved to the full Author entity (when every reference
has a matching Author); when the collection is empty, the rendered list
is empty. -/
theorem claim_C4 (s : Store) :
    book_list s = [Action.render "book_list"
      { title := "Book List", book_list := some (bookListRetrieve s) }] ∧
    index s = [Action.render "index"
      { title := "Home", book_list := some (indexRetrieve s) }] ∧
    List.Pairwise (fun x y => x.title ≤ y.title) (bookListRetrieve s) ∧
    (bookListRetrieve s).Perm (s.books.map (listItem s)) ∧
    (∀ x ∈ bookListRetrieve s, x.authorEntity = findAuthor s x.author) ∧
    ((∀ b ∈ s.books, ∃ au ∈ s.authors, au.id = b.author) →
      ∀ x ∈ bookListRetrieve s,
        ∃ au, x.authorEntity = some au ∧ au.id = x.author) ∧
    (s.books = [] → bookListRetrieve s = []) := by
  refine ⟨rfl, rfl, sortByTitle_sorted _, sortByTitle_perm _, ?_, ?_, ?_⟩
  · intro x hx
    have hx2 : x ∈ s.books.map (listItem s) := (sortByTitle_perm _).subset hx
    obtain ⟨b, _, rfl⟩ := List.mem_map.mp hx2
    rfl
  · intro hres x hx
    have hx2 : x ∈ s.books.map (listItem s) := (sortByTitle_perm _).subset hx
    obtain ⟨b, hb, rfl⟩ := List.mem_map.mp hx2
    obtain ⟨au, hau, hid⟩ := hres b hb
    show ∃ au, findAuthor s b.author = some au ∧ au.id = b.author
    cases hfa : findAuthor s b.author with
    | none =>
        exfalso
        rw [findAuthor, List.find?_eq_none] at hfa
        have hne := hfa au hau
        simp only [beq_iff_eq] at hne
        exact hne hid
    | some au2 =>
        exact ⟨au2, rfl, by simpa using List.find?_some hfa⟩
  · intro h
    simp [bookListRetrieve, h, sortByTitle]

/-- Witness for C4 at the one-book store: the sorted list is sorted, and
the sample book's author reference is resolved. -/
theorem claim_C4_witness :
    List.Pairwise (fun x y => x.title ≤ y.title) (bookListRetrieve demoStore) ∧
    (∃ au, (listItem demoStore demoBook).authorEntity = some au ∧
      au.id = (listItem demoStore demoBook).author) :=
  ⟨(claim_C4 demoStore).2.2.1,
    (claim_C4 demoStore).2.2.2.2.2.1 (by decide)
      (listItem demoStore demoBook) (by decide)⟩

/-- C7: for every Delete-form (GET) request whose path identifier matches
no stored Book, the HTTP response is the redirect to the book list (the
first response-producing call the handler issues), not a rendered view. -/
theorem claim_C7 (s : Store) (pid : String) (h : findBook s pid = none) :
    response (book_delete_get s pid) = some (Action.redirect "/catalog/books") ∧
    ∀ v vm, response (book_delete_get s pid) ≠ some (Action.render v vm) := by
  have he : book_delete_get s pid =
      [Action.redirect "/catalog/books",
        Action.render "book_delete" { title := "Delete Book", book := some none }] := by
    simp [book_delete_get, h]
  rw [he]
  exact ⟨rfl, fun v vm hc => by simp [response] at hc⟩

/-- Witness for C7 at the empty store. -/
theorem claim_C7_witness :
    response (book_delete_get emptyStore "nope")
        = some (Action.redirect "/catalog/books") ∧
    ∀ v vm, response (book_delete_get emptyStore "nope")
        ≠ some (Action.render v vm) :=
  claim_C7 emptyStore "nope" (by decide)

/-- C8: the retrieval performed by Home is identical to the retrieval
performed by List; the two view models differ only in the title string
("Home" versus "Book List") and the template name. -/
theorem claim_C8 (s : Store) :
    bookListRetrieve s = indexRetrieve s ∧
    book_list s = [Action.render "book_list"
      { title := "Book List", book_list := some (bookListRetrieve s) }] ∧
    index s = [Action.render "index"
      { title := "Home", book_list := some (bookListRetrieve s) }] :=
  ⟨rfl, rfl, rfl⟩

/-- C9: whenever the Delete-form (GET) lookup returns no Book, the
handler, after issuing the redirect to the book list, still invokes the
view renderer with view model (title "Delete Book", book null). -/
theorem claim_C9 (s : Store) (pid : String) (h : findBook s pid = none) :
    book_delete_get s pid =
      [Action.redirect "/catalog/books",
        Action.render "book_delete"
          { title := "Delete Book", book := some none }] := by
  simp [book_delete_get, h]

/-- Witness for C9 at the empty store. -/
theorem claim_C9_witness :
    book_delete_get emptyStore "missing" =
      [Action.redirect "/catalog/books",
        Action.render "book_delete"
          { title := "Delete Book", book := some none }] :=
  claim_C9 emptyStore "missing" (by decide)

/-- C1: for every Create or Update submission in which at least one of
title, author, summary is empty or whitespace-only after trimming, no
write to the Book store occurs, and the response re-renders the form with
the candidate Book (built from the trimmed, escaped values), one error
message per violated field, and the full Author list. -/
theorem claim_C1 (s : Store) (pid t a m : String)
    (h : jsTrim t = "" ∨ jsTrim a = "" ∨ jsTrim m = "") :
    (book_create_post s t a m).1 = s ∧
    (book_create_post s t a m).2 = [Action.render "book_form"
      { title := "Create Book", authors := some (allAuthorsSorted s),
        book := some (some ⟨freshId s, escapeHtml (jsTrim t),
          escapeHtml (jsTrim a), none, some (escapeHtml (jsTrim m))⟩),
        errors := some (fieldErrors t a m) }] ∧
    (book_update_post s pid t a m).1 = s ∧
    (book_update_post s pid t a m).2 = [Action.render "book_form"
      { title := "Update Book", authors := some (allAuthorsSorted s),
        book := some (some ⟨pid, escapeHtml (jsTrim t),
          escapeHtml (jsTrim a), none, some (escapeHtml (jsTrim m))⟩),
        errors := some (fieldErrors t a m) }] ∧
    ("Title must not be empty." ∈ fieldErrors t a m ↔ jsTrim t = "") ∧
    ("Author must not be empty." ∈ fieldErrors t a m ↔ jsTrim a = "") ∧
    ("Summary must not be empty." ∈ fieldErrors t a m ↔ jsTrim m = "") ∧
    (allAuthorsSorted s).Perm s.authors := by
  have hne : fieldErrors t a m ≠ [] := by
    rw [Ne, fieldErrors_eq_nil_iff]
    rcases h with h | h | h <;> simp [h]
  refine ⟨?_, ?_, ?_, ?_, mem_fieldErrors_title t a m,
    mem_fieldErrors_author t a m, mem_fieldErrors_summary t a m,
    allAuthorsSorted_perm s⟩ <;>
    simp [book_create_post, book_update_post, candidateRBook, hne]

/-- Witness for C1: a whitespace-only title is rejected and nothing is
written. -/
theorem claim_C1_witness :
    (book_create_post demoStore "  " "A1" "S").1 = demoStore ∧
    ("Title must not be empty." ∈ fieldErrors "  " "A1" "S" ↔
      jsTrim "  " = "") := by
  have h := claim_C1 demoStore "b0" "  " "A1" "S" (by decide)
  exact ⟨h.1, h.2.2.2.2.1⟩

/-- C2: for every Create submission in which title, author, summary are
all non-empty after trimming, exactly one new Book is persisted whose
fields equal the submitted values after trimming and HTML-escaping, and
the response is a redirect to the canonical URL derived from the
identifier the store assigned to that Book. -/
theorem claim_C2 (s : Store) (t a m : String)
    (ht : jsTrim t ≠ "") (ha : jsTrim a ≠ "") (hm : jsTrim m ≠ "") :
    (book_create_post s t a m).1.books
      = s.books ++ [⟨freshId s, escapeHtml (jsTrim t), escapeHtml (jsTrim a),
          escapeHtml (jsTrim m)⟩] ∧
    (book_create_post s t a m).1.authors = s.authors ∧
    (book_create_post s t a m).2 = [Action.redirect (bookUrl (freshId s))] := by
  have hnil : fieldErrors t a m = [] :=
    (fieldErrors_eq_nil_iff t a m).mpr ⟨ht, ha, hm⟩
  refine ⟨?_, ?_, ?_⟩ <;> simp [book_create_post, hnil]

/-- Witness for C2: a concrete valid submission appends one book with the
trimmed, escaped fields and redirects to its assigned URL. -/
theorem claim_C2_witness :
    (book_create_post emptyStore " The <T> " "a1" "S&S").1.books
      = [⟨"b0", "The &lt;T&gt;", "a1", "S&amp;S"⟩] ∧
    (book_create_post emptyStore " The <T> " "a1" "S&S").2
      = [Action.redirect "/catalog/book/b0"] := by
  have h := claim_C2 emptyStore " The <T> " "a1" "S&S"
    (by decide) (by decide) (by decide)
  exact ⟨h.1.trans (by decide), h.2.2.trans (by decide)⟩

/-- C5: for every Update submission with valid fields targeting an
existing Book, the Book stored at the path identifier keeps that
identifier while its fields are replaced by the submitted values, the
response redirects to the canonical URL built from that identifier, and
no other stored Book is modified (the surrounding lists are unchanged). -/
theorem claim_C5 (s : Store) (pid t a m : String)
    (ht : jsTrim t ≠ "") (ha : jsTrim a ≠ "") (hm : jsTrim m ≠ "")
    (b0 : Book) (hb : findBook s pid = some b0) :
    ∃ l₁ l₂,
      s.books = l₁ ++ b0 :: l₂ ∧
      b0.id = pid ∧
      (∀ x ∈ l₁, x.id ≠ pid) ∧
      (book_update_post s pid t a m).1.books
        = l₁ ++ (⟨b0.id, escapeHtml (jsTrim t), escapeHtml (jsTrim a),
            escapeHtml (jsTrim m)⟩ : Book) :: l₂ ∧
      (book_update_post s pid t a m).1.authors = s.authors ∧
      (book_update_post s pid t a m).2 = [Action.redirect (bookUrl pid)] := by
  have hnil : fieldErrors t a m = [] :=
    (fieldErrors_eq_nil_iff t a m).mpr ⟨ht, ha, hm⟩
  obtain ⟨hid, l₁, l₂, he, hl₁⟩ := findBook_decomp s pid b0 hb
  refine ⟨l₁, l₂, he, hid, hl₁, ?_, ?_, ?_⟩
  · simp only [book_update_post, hnil, if_pos]
    rw [he, updateById_append pid _ l₁ b0 l₂ hl₁ hid]
  · simp [book_update_post, hnil]
  · simp [book_update_post, hnil]

/-- Witness for C5: updating the sample book in place. -/
theorem claim_C5_witness :
    ∃ l₁ l₂,
      demoStore.books = l₁ ++ demoBook :: l₂ ∧
      demoBook.id = "b0" ∧
      (∀ x ∈ l₁, x.id ≠ "b0") ∧
      (book_update_post demoStore "b0" "T2" "a9" "S2").1.books
        = l₁ ++ (⟨demoBook.id, escapeHtml (jsTrim "T2"), escapeHtml (jsTrim "a9"),
            escapeHtml (jsTrim "S2")⟩ : Book) :: l₂ ∧
      (book_update_post demoStore "b0" "T2" "a9" "S2").1.authors
        = demoStore.authors ∧
      (book_update_post demoStore "b0" "T2" "a9" "S2").2
        = [Action.redirect (bookUrl "b0")] :=
  claim_C5 demoStore "b0" "T2" "a9" "S2" (by decide) (by decide) (by decide)
    demoBook (by decide)

/-- C6: every Delete-submit deletes the Book whose identifier is in the
request body, regardless of the path-identifier lookup outcome, and the
response redirects to the book list; for a non-existent path identifier,
both Delete-form and Delete-submit respond with the redirect to the book
list and neither forwards an error. -/
theorem claim_C6 (s : Store) (pid bid : String) :
    (book_delete_post s pid bid).1.books = removeById bid s.books ∧
    (book_delete_post s pid bid).1.authors = s.authors ∧
    response (book_delete_post s pid bid).2
      = some (Action.redirect "/catalog/books") ∧
    (∀ st msg, Action.nextError st msg ∉ (book_delete_post s pid bid).2) ∧
    (findBook s pid = none →
      response (book_delete_get s pid) = some (Action.redirect "/catalog/books") ∧
      ∀ st msg, Action.nextError st msg ∉ book_delete_get s pid) := by
  refine ⟨rfl, rfl, ?_, ?_, ?_⟩
  · cases hf : findBook s pid <;> simp [book_delete_post, response, hf]
  · intro st msg hmem
    cases hf : findBook s pid <;> simp [book_delete_post, hf] at hmem
  · intro h
    constructor
    · simp [book_delete_get, response, h]
    · intro st msg hmem
      simp [book_delete_get, h] at hmem

/-- Witness for C6: deleting the body identifier at a missing path
identifier empties the sample store and responds with the redirect. -/
theorem claim_C6_witness :
    (book_delete_post demoStore "not-there" "b0").1.books = [] ∧
    response (book_delete_get demoStore "not-there")
      = some (Action.redirect "/catalog/books") := by
  have h := claim_C6 demoStore "not-there" "b0"
  exact ⟨h.1.trans (by decide), (h.2.2.2.2 (by decide)).1⟩

/-- C10: for every Update submission with valid fields whose path
identifier matches no stored Book, the handler still redirects to the
canonical URL built from the path identifier, the store is unchanged, and
Update-submit never forwards a NotFound error on any input. -/
theorem claim_C10 (s : Store) (pid t a m : String)
    (ht : jsTrim t ≠ "") (ha : jsTrim a ≠ "") (hm : jsTrim m ≠ "")
    (hnone : findBook s pid = none) :
    (book_update_post s pid t a m).2 = [Action.redirect (bookUrl pid)] ∧
    (book_update_post s pid t a m).1 = s ∧
    (∀ s₂ pid₂ t₂ a₂ m₂ st msg,
      Action.nextError st msg ∉ (book_update_post s₂ pid₂ t₂ a₂ m₂).2) := by
  have hnil : fieldErrors t a m = [] :=
    (fieldErrors_eq_nil_iff t a m).mpr ⟨ht, ha, hm⟩
  have hall : ∀ x ∈ s.books, x.id ≠ pid := by
    rw [findBook, List.find?_eq_none] at hnone
    intro x hx
    have hne := hnone x hx
    simpa using hne
  refine ⟨by simp [book_update_post, hnil], ?_, ?_⟩
  · simp [book_update_post, hnil, updateById_id _ _ _ hall]
  · intro s₂ pid₂ t₂ a₂ m₂ st msg hmem
    by_cases hb : fieldErrors t₂ a₂ m₂ = [] <;>
      simp [book_update_post, hb] at hmem

/-- Witness for C10: a valid update at a missing identifier leaves the
sample store unchanged and redirects to the URL built from the path
identifier. -/
theorem claim_C10_witness :
    (book_update_post demoStore "ghost" "T" "A" "S").2
      = [Action.redirect (bookUrl "ghost")] ∧
    (book_update_post demoStore "ghost" "T" "A" "S").1 = demoStore := by
  have h := claim_C10 demoStore "ghost" "T" "A" "S"
    (by decide) (by decide) (by decide) (by decide)
  exact ⟨h.1, h.2.1⟩

end LocalLibrary
